import Mathlib

/-!
Verification of the Antigravity-Manager core against its specification.

The development shallowly embeds the three core subsystems:
  * the model route resolver   (src-tauri/src/proxy/common/model_mapping.rs),
  * the JSON schema flattener  (src-tauri/src/proxy/common/json_schema.rs),
  * the proxy service lifecycle (src-tauri/src/services/proxy.rs).

Rust `String` is modelled by Lean `String`; all string primitives used by the
source (`starts_with`, `ends_with`, `contains`, `trim`, `strip_prefix`,
`to_lowercase`, `to_uppercase`, one-`*` wildcard matching) are defined here
over the character list so that every definition evaluates by kernel
reduction.  `to_lowercase`/`to_uppercase` are modelled on the ASCII range
(the Unicode-only cases never influence any property proved here: every
literal the source compares against is ASCII).  Rust `HashMap`s are modelled
as association lists looked up by key equality; the wildcard scan of the
source iterates the map in an unspecified order, which the list order
represents.
-/

namespace AGM

/-- ASCII lower-casing of one character (model of Rust `to_lowercase`). -/
def lowerChar (c : Char) : Char :=
  match c with
  | 'A' => 'a' | 'B' => 'b' | 'C' => 'c' | 'D' => 'd' | 'E' => 'e'
  | 'F' => 'f' | 'G' => 'g' | 'H' => 'h' | 'I' => 'i' | 'J' => 'j'
  | 'K' => 'k' | 'L' => 'l' | 'M' => 'm' | 'N' => 'n' | 'O' => 'o'
  | 'P' => 'p' | 'Q' => 'q' | 'R' => 'r' | 'S' => 's' | 'T' => 't'
  | 'U' => 'u' | 'V' => 'v' | 'W' => 'w' | 'X' => 'x' | 'Y' => 'y'
  | 'Z' => 'z' | c => c

/-- ASCII upper-casing of one character (model of Rust `to_uppercase`):
code points 97-122 (`a`-`z`) are shifted down by 32. -/
def upperChar (c : Char) : Char :=
  if 97 ≤ c.toNat ∧ c.toNat ≤ 122 then Char.ofNat (c.toNat - 32) else c

/-- Model of Rust `str::to_lowercase`. -/
def rustLower (s : String) : String := ⟨s.data.map lowerChar⟩

/-- Model of Rust `str::to_uppercase`. -/
def rustUpper (s : String) : String := ⟨s.data.map upperChar⟩

/-- `p` is a prefix of `l` (character lists). -/
def listPrefixOf : List Char → List Char → Bool
  | [], _ => true
  | _ :: _, [] => false
  | a :: as, b :: bs => a == b && listPrefixOf as bs

/-- Model of Rust `str::starts_with`. -/
def strStartsWith (s p : String) : Bool := listPrefixOf p.data s.data

/-- Model of Rust `str::ends_with`. -/
def strEndsWith (s p : String) : Bool := listPrefixOf p.data.reverse s.data.reverse

/-- `n` occurs as a contiguous sublist of the second argument. -/
def listContainsSub (n : List Char) : List Char → Bool
  | [] => n.isEmpty
  | l@(_ :: t) => listPrefixOf n l || listContainsSub n t

/-- Model of Rust `str::contains` (substring / single-character patterns). -/
def strContains (s sub : String) : Bool := listContainsSub sub.data s.data

/-- ASCII whitespace (model of the whitespace class used by Rust `trim`). -/
def isWsChar (c : Char) : Bool := c == ' ' || c == '\t' || c == '\n' || c == '\r'

/-- Model of Rust `str::trim`. -/
def rustTrim (s : String) : String :=
  ⟨((s.data.dropWhile isWsChar).reverse.dropWhile isWsChar).reverse⟩

/-- Model of Rust `str::strip_prefix`. -/
def rustStripPrefix (s p : String) : Option String :=
  if strStartsWith s p then some ⟨s.data.drop p.data.length⟩ else none

/-- Split a pattern at its first `*`, as Rust `pattern.find('*')` does:
returns the part before and the part after the star. -/
def splitAtStar : List Char → Option (List Char × List Char)
  | [] => none
  | c :: rest =>
    if c == '*' then some ([], rest)
    else
      match splitAtStar rest with
      | some (p, s) => some (c :: p, s)
      | none => none

/-- Exact-key lookup in an association list (model of Rust `HashMap::get`;
source maps have unique keys, so first match is the match). -/
def alookup {α : Type} : List (String × α) → String → Option α
  | [], _ => none
  | (k, v) :: rest, key => if k = key then some v else alookup rest key

/-! ## Model route resolver — src-tauri/src/proxy/common/model_mapping.rs -/

/-- The static `CLAUDE_TO_GEMINI` table, in source insertion order. -/
def CLAUDE_TO_GEMINI : List (String × String) :=
  [ ("claude-opus-4-5-thinking", "claude-opus-4-5-thinking"),
    ("claude-sonnet-4-5", "claude-sonnet-4-5"),
    ("claude-sonnet-4-5-thinking", "claude-sonnet-4-5-thinking"),
    ("claude-sonnet-4-5-20250929", "claude-sonnet-4-5-thinking"),
    ("claude-3-5-sonnet-20241022", "claude-sonnet-4-5"),
    ("claude-3-5-sonnet-20240620", "claude-sonnet-4-5"),
    ("claude-opus-4", "claude-opus-4-5-thinking"),
    ("claude-opus-4-5-20251101", "claude-opus-4-5-thinking"),
    ("claude-haiku-4", "claude-sonnet-4-5"),
    ("claude-3-haiku-20240307", "claude-sonnet-4-5"),
    ("claude-haiku-4-5-20251001", "claude-sonnet-4-5"),
    ("gpt-4", "gemini-2.5-pro"),
    ("gpt-4-turbo", "gemini-2.5-pro"),
    ("gpt-4-turbo-preview", "gemini-2.5-pro"),
    ("gpt-4-0125-preview", "gemini-2.5-pro"),
    ("gpt-4-1106-preview", "gemini-2.5-pro"),
    ("gpt-4-0613", "gemini-2.5-pro"),
    ("gpt-4o", "gemini-2.5-pro"),
    ("gpt-4o-2024-05-13", "gemini-2.5-pro"),
    ("gpt-4o-2024-08-06", "gemini-2.5-pro"),
    ("gpt-4o-mini", "gemini-2.5-flash"),
    ("gpt-4o-mini-2024-07-18", "gemini-2.5-flash"),
    ("gpt-3.5-turbo", "gemini-2.5-flash"),
    ("gpt-3.5-turbo-16k", "gemini-2.5-flash"),
    ("gpt-3.5-turbo-0125", "gemini-2.5-flash"),
    ("gpt-3.5-turbo-1106", "gemini-2.5-flash"),
    ("gpt-3.5-turbo-0613", "gemini-2.5-flash"),
    ("gemini-2.5-flash-lite", "gemini-2.5-flash-lite"),
    ("gemini-2.5-flash-thinking", "gemini-2.5-flash-thinking"),
    ("gemini-3-pro-low", "gemini-3-pro-low"),
    ("gemini-3-pro-high", "gemini-3-pro-high"),
    ("gemini-3-pro-preview", "gemini-3-pro-preview"),
    ("gemini-3-pro", "gemini-3-pro"),
    ("gemini-2.5-flash", "gemini-2.5-flash"),
    ("gemini-3-flash", "gemini-3-flash"),
    ("gemini-3-pro-image", "gemini-3-pro-image") ]

/-- `map_claude_model_to_gemini` (model_mapping.rs lines 59-72). -/
def map_claude_model_to_gemini (input : String) : String :=
  match alookup CLAUDE_TO_GEMINI input with
  | some mapped => mapped
  | none =>
    if strStartsWith input "gemini-" || strContains input "thinking" then input
    else "claude-sonnet-4-5"

/-- `wildcard_match` (model_mapping.rs lines 136-144). -/
def wildcard_match (pattern text : String) : Bool :=
  match splitAtStar pattern.data with
  | some (pre, suf) =>
    listPrefixOf pre text.data && listPrefixOf suf.reverse text.data.reverse
  | none => pattern == text

/-- Modelled from the spec: `ModelPriority` lives in `proxy/config.rs`,
which is not among the provided sources; the spec gives the two variants. -/
inductive ModelPriority where
  | AccuracyFirst
  | CapacityFirst
deriving DecidableEq

/-- Modelled from the spec: `ModelStickiness` lives in `proxy/config.rs`,
which is not among the provided sources; the spec gives the two variants. -/
inductive ModelStickiness where
  | Strong
  | Weak
deriving DecidableEq

/-- Modelled from the spec: `ModelFallbackPolicy` lives in `proxy/config.rs`;
the spec gives the three fields. -/
structure ModelFallbackPolicy where
  model_priority : ModelPriority
  stickiness : ModelStickiness
  max_model_hops : Option Nat
deriving DecidableEq

/-- Modelled from the spec: the policy defaults are
`AccuracyFirst`, `Strong`, `None`. -/
def ModelFallbackPolicy.default : ModelFallbackPolicy :=
  ⟨ModelPriority.AccuracyFirst, ModelStickiness.Strong, none⟩

/-- Modelled from the spec: `ModelStrategy` lives in `proxy/config.rs`;
the spec gives the two fields (ordered candidates and a policy). -/
structure ModelStrategy where
  candidates : List String
  policy : ModelFallbackPolicy

/-- `ModelRoutePlan` (model_mapping.rs lines 250-256). -/
structure ModelRoutePlan where
  primary : String
  fallbacks : List String
  policy : ModelFallbackPolicy
  strategy_id : Option String

/-- `ModelRoutePlan::candidates` (model_mapping.rs lines 259-270). -/
def ModelRoutePlan.candidates (p : ModelRoutePlan) : List String :=
  (if !(p.primary == "") then [p.primary] else []) ++
    p.fallbacks.filter (fun fb => !(fb == ""))

/-- `ModelRoutePlan.max_models` (model_mapping.rs lines 272-278). -/
def ModelRoutePlan.max_models (p : ModelRoutePlan) : Nat :=
  let count := p.candidates.length
  match p.policy.max_model_hops with
  | some hops => if hops > 0 then min hops count else max count 1
  | none => max count 1

/-- `ModelRoutePlan.is_capacity_first` (model_mapping.rs lines 280-282). -/
def ModelRoutePlan.is_capacity_first (p : ModelRoutePlan) : Bool :=
  match p.policy.model_priority with
  | ModelPriority.CapacityFirst => true
  | ModelPriority.AccuracyFirst => false

/-- `extract_strategy_id` (model_mapping.rs lines 285-287). -/
def extract_strategy_id (value : String) : Option String :=
  rustStripPrefix value "strategy:"

/-- One guarded family-table probe of step 3 (`if cond { if let Some(target)
= mapping.get(key) { return target } }`): the lookup result when the family
condition holds, nothing otherwise. -/
def group_lookup (cond : Bool) (mapping : List (String × String))
    (key : String) : Option String :=
  if cond then alookup mapping key else none

/-- The built-in pass-through test of step 4 (model_mapping.rs lines
210-215): the model is in the built-in table and maps to itself. -/
def isBuiltinPassThrough (original_model : String) : Bool :=
  match alookup CLAUDE_TO_GEMINI original_model with
  | some mapped => mapped == original_model
  | none => false

/-- The Anthropic family key selection (model_mapping.rs lines 223-229). -/
def claude_family_key (lower_model : String) : String :=
  if strContains lower_model "4-5" || strContains lower_model "4.5" then
    "claude-4.5-series"
  else if strContains lower_model "3-5" || strContains lower_model "3.5" then
    "claude-3.5-series"
  else "claude-default"

/-- `resolve_model_route` (model_mapping.rs lines 153-248).  The five steps
are translated in source order; logger calls are effect-free and dropped. -/
def resolve_model_route (original_model : String)
    (custom_mapping openai_mapping anthropic_mapping : List (String × String))
    (apply_claude_family_mapping : Bool) : String :=
  -- 1. exact custom match
  match alookup custom_mapping original_model with
  | some target => target
  | none =>
  -- 2. wildcard custom match (map iteration order = list order)
  match (custom_mapping.find? fun pt =>
      strContains pt.1 "*" && wildcard_match pt.1 original_model) with
  | some pt => pt.2
  | none =>
    let lower_model := rustLower original_model
    -- 3. OpenAI family groups
    match group_lookup
        ((strStartsWith lower_model "gpt-4" && !strContains lower_model "o"
            && !strContains lower_model "mini" && !strContains lower_model "turbo")
          || strStartsWith lower_model "o1-" || strStartsWith lower_model "o3-"
          || lower_model == "gpt-4")
        openai_mapping "gpt-4-series" with
    | some target => target
    | none =>
    match group_lookup
        (strContains lower_model "4o" || strStartsWith lower_model "gpt-3.5"
          || (strContains lower_model "mini" && !strContains lower_model "gemini")
          || strContains lower_model "turbo")
        openai_mapping "gpt-4o-series" with
    | some target => target
    | none =>
    match group_lookup (strStartsWith lower_model "gpt-5")
        openai_mapping "gpt-5-series" with
    | some target => target
    | none =>
    match group_lookup (strStartsWith lower_model "gpt-5")
        openai_mapping "gpt-4-series" with
    | some target => target
    | none =>
    -- 4. Anthropic family groups
    if strStartsWith lower_model "claude-" then
      if isBuiltinPassThrough original_model then
        original_model
      else if apply_claude_family_mapping && strContains lower_model "haiku" then
        "gemini-2.5-flash-lite"
      else
        match alookup anthropic_mapping (claude_family_key lower_model) with
        | some target => target
        | none =>
          match alookup anthropic_mapping original_model with
          | some target => target
          | none => map_claude_model_to_gemini original_model
    else
      -- 5. system default mapping
      map_claude_model_to_gemini original_model

/-- The fall-through plan built at the end of `resolve_model_route_plan`
(model_mapping.rs lines 334-343). -/
def default_route_plan (original_model target : String) : ModelRoutePlan :=
  { primary :=
      if strStartsWith target "strategy:" then
        map_claude_model_to_gemini original_model
      else target,
    fallbacks := [],
    policy := ModelFallbackPolicy.default,
    strategy_id := none }

/-- `resolve_model_route_plan` (model_mapping.rs lines 289-344). -/
def resolve_model_route_plan (original_model : String)
    (custom_mapping openai_mapping anthropic_mapping : List (String × String))
    (model_strategies : List (String × ModelStrategy))
    (apply_claude_family_mapping : Bool) : ModelRoutePlan :=
  let target := resolve_model_route original_model custom_mapping
    openai_mapping anthropic_mapping apply_claude_family_mapping
  match extract_strategy_id target with
  | some strategy_id =>
    (match alookup model_strategies strategy_id with
     | some strategy =>
       let candidates := (strategy.candidates.map fun c => rustTrim c).filter
         fun c => !(c == "") && !(strStartsWith c "strategy:")
       match candidates with
       | primary :: rest =>
         { primary := primary, fallbacks := rest,
           policy := strategy.policy, strategy_id := some strategy_id }
       | [] => default_route_plan original_model target
     | none => default_route_plan original_model target)
  | none => default_route_plan original_model target

/-! ## JSON schema flattener — src-tauri/src/proxy/common/json_schema.rs

`serde_json::Value` is modelled as a mutual inductive: a JSON value, an
array of values, and an object as an ordered field list.  Numbers are
modelled as `Int` (no claim depends on numeric values).  The source's
`serde_json::Map` operations are modelled on the field list: `remove`
deletes the key, `entry(k).or_insert(v)` appends `(k, v)` when `k` is
absent, `extend` overrides duplicate keys with the later entry.
`flatten_refs` re-runs itself on the same map after merging a referenced
definition, so it need not terminate on cyclic reference graphs (the source
comments acknowledge this); the embedding therefore takes a fuel parameter
and returns `none` when the fuel runs out. -/

mutual
inductive Json where
  | null : Json
  | boolVal : Bool → Json
  | num : Int → Json
  | str : String → Json
  | arr : JArr → Json
  | obj : JObj → Json
inductive JArr where
  | nil : JArr
  | cons : Json → JArr → JArr
inductive JObj where
  | nil : JObj
  | cons : String → Json → JObj → JObj
end

namespace JObj

/-- Does the object have key `k`? (model of `Map::contains_key`). -/
def hasKey : JObj → String → Bool
  | nil, _ => false
  | cons k _ rest, key => k == key || hasKey rest key

/-- Value at key `k` (model of `Map::get`; source objects have unique keys). -/
def getKey : JObj → String → Option Json
  | nil, _ => none
  | cons k v rest, key => if k = key then some v else getKey rest key

/-- Delete key `k` everywhere (model of `Map::remove`'s effect on the map). -/
def eraseKey : JObj → String → JObj
  | nil, _ => nil
  | cons k v rest, key =>
    if k = key then eraseKey rest key else cons k v (eraseKey rest key)

/-- `map.remove(k)`: the removed value (first occurrence) and the map
without the key. -/
def removeKey (m : JObj) (key : String) : Option Json × JObj :=
  (m.getKey key, m.eraseKey key)

/-- `defs.extend(d)`: entries of `d` override entries of the base map. -/
def extendOverride (base news : JObj) : JObj :=
  match base with
  | nil => news
  | cons k v rest =>
    if news.hasKey k then extendOverride rest news
    else cons k v (extendOverride rest news)

/-- List-style append of field lists. -/
def append : JObj → JObj → JObj
  | nil, m => m
  | cons k v rest, m => cons k v (append rest m)

/-- `for (k, v) in def_map { map.entry(k).or_insert(v) }`: append each entry
of `news` whose key is absent from the map. -/
def mergeAbsent : JObj → JObj → JObj
  | m, nil => m
  | m, cons k v rest =>
    mergeAbsent (if m.hasKey k then m else m.append (cons k v nil)) rest

end JObj

/-- Last `/`-separated segment of a reference path
(`ref_path.split('/').last()`; Rust `split` always yields a segment). -/
def lastSegment (s : String) : String :=
  ⟨go s.data []⟩
where
  go : List Char → List Char → List Char
  | [], acc => acc.reverse
  | c :: rest, acc => if c == '/' then go rest [] else go rest (c :: acc)

/-- The fields of `$defs`/`definitions` when the removed value is an object
(`if let Some(Value::Object(d)) = map.remove(..)`), else nothing. -/
def defsFields : Option Json → JObj
  | some (Json.obj fs) => fs
  | _ => JObj.nil

mutual
/-- `flatten_refs` (json_schema.rs lines 33-67).  Step 1 replaces a string
`$ref` by the named definition (merging only absent keys) and re-runs on the
merged map; step 2 recurses into every object child and every object element
of an array child.  Every recursive step burns one unit of fuel (so the
functions are structurally recursive on the fuel and evaluate by kernel
reduction); `none` means the fuel ran out.  For every input on which the
source terminates there is a fuel for which the embedding returns `some`. -/
def flattenRefs : Nat → JObj → JObj → Option JObj
  | 0, _, _ => none
  | Nat.succ fuel, defs, m =>
    let (refVal, m1) := m.removeKey "$ref"
    let step1 : Option JObj :=
      match refVal with
      | some (Json.str ref_path) =>
        (match defs.getKey (lastSegment ref_path) with
         | some (Json.obj def_map) =>
           flattenRefs fuel defs (m1.mergeAbsent def_map)
         | some _ => some m1
         | none => some m1)
      | some _ => some m1
      | none => some m1
    match step1 with
    | none => none
    | some m2 => flattenFields fuel defs m2

/-- Step 2 of `flatten_refs`: the traversal of the map's entries. -/
def flattenFields : Nat → JObj → JObj → Option JObj
  | 0, _, _ => none
  | Nat.succ _, _, JObj.nil => some JObj.nil
  | Nat.succ fuel, defs, JObj.cons k v rest =>
    let v' : Option Json :=
      match v with
      | Json.obj child => (flattenRefs fuel defs child).map Json.obj
      | Json.arr items => (flattenItems fuel defs items).map Json.arr
      | other => some other
    match v' with
    | none => none
    | some w =>
      match flattenFields fuel defs rest with
      | none => none
      | some rest' => some (JObj.cons k w rest')

/-- Step 2 of `flatten_refs` on an array child: only object elements are
flattened. -/
def flattenItems : Nat → JObj → JArr → Option JArr
  | 0, _, _ => none
  | Nat.succ _, _, JArr.nil => some JArr.nil
  | Nat.succ fuel, defs, JArr.cons x xs =>
    let x' : Option Json :=
      match x with
      | Json.obj child => (flattenRefs fuel defs child).map Json.obj
      | other => some other
    match x' with
    | none => none
    | some y =>
      match flattenItems fuel defs xs with
      | none => none
      | some ys => some (JArr.cons y ys)
end

/-- The keyword array `fields_to_remove` (json_schema.rs lines 73-105). -/
def fields_to_remove : List String :=
  [ "$schema", "additionalProperties", "format", "default", "uniqueItems",
    "minLength", "maxLength", "minimum", "maximum", "exclusiveMinimum",
    "exclusiveMaximum", "multipleOf", "minItems", "maxItems", "pattern",
    "const", "minProperties", "maxProperties", "propertyNames",
    "patternProperties", "contains", "minContains", "maxContains",
    "if", "then", "else", "not", "anyOf", "oneOf", "allOf" ]

/-- A key the removal loop deletes: it is in `fields_to_remove` and is not
one of the composite keywords the loop `continue`s over.  (The hard-coded
re-removals at json_schema.rs lines 119-123 repeat keys already removed by
the loop and are no-ops.) -/
def shouldRemove (k : String) : Bool :=
  fields_to_remove.contains k &&
    !(k == "anyOf" || k == "oneOf" || k == "allOf")

/-- The union-type collapse (json_schema.rs lines 132-143): the first string
element that is not `"null"`, upper-cased, defaulting to `"STRING"`. -/
def selectType : JArr → String
  | JArr.nil => "STRING"
  | JArr.cons (Json.str s) rest =>
    if s ≠ "null" then rustUpper s else selectType rest
  | JArr.cons _ rest => selectType rest

/-- The `type` normalization (json_schema.rs lines 127-147). -/
def normType : Json → Json
  | Json.str s => Json.str (rustUpper s)
  | Json.arr items => Json.str (selectType items)
  | v => v

mutual
/-- `clean_json_schema_recursive` (json_schema.rs lines 69-176).  The
source's three passes over one map (field removal, `type` normalization,
recursion into `properties`/`items`/`allOf`/`anyOf`/`oneOf`) touch disjoint
keys, so the embedding performs them in a single entry-wise pass. -/
def cleanRec : Json → Json
  | Json.obj fs => Json.obj (cleanObj fs)
  | Json.arr xs => Json.arr (cleanArr xs)
  | v => v

/-- The per-object pass of `clean_json_schema_recursive`. -/
def cleanObj : JObj → JObj
  | JObj.nil => JObj.nil
  | JObj.cons k v rest =>
    if shouldRemove k then cleanObj rest
    else
      JObj.cons k
        (if k = "type" then normType v
         else if k = "properties" then
           match v with
           | Json.obj props => Json.obj (cleanProps props)
           | _ => v
         else if k = "items" then cleanRec v
         else if k = "allOf" ∨ k = "anyOf" ∨ k = "oneOf" then
           match v with
           | Json.arr xs => Json.arr (cleanArr xs)
           | _ => v
         else v)
        (cleanObj rest)

/-- Recursion into every value of a `properties` object. -/
def cleanProps : JObj → JObj
  | JObj.nil => JObj.nil
  | JObj.cons k v rest => JObj.cons k (cleanRec v) (cleanProps rest)

/-- Recursion into every element of an array. -/
def cleanArr : JArr → JArr
  | JArr.nil => JArr.nil
  | JArr.cons x xs => JArr.cons (cleanRec x) (cleanArr xs)
end

/-- The per-entry value transform of `cleanObj`, named so the proofs can
speak about it; `cleanObj`'s keep-branch is definitionally
`JObj.cons k (cleanEntry k v) (cleanObj rest)`. -/
def cleanEntry (k : String) (v : Json) : Json :=
  if k = "type" then normType v
  else if k = "properties" then
    match v with
    | Json.obj props => Json.obj (cleanProps props)
    | _ => v
  else if k = "items" then cleanRec v
  else if k = "allOf" ∨ k = "anyOf" ∨ k = "oneOf" then
    match v with
    | Json.arr xs => Json.arr (cleanArr xs)
    | _ => v
  else v

/-- `clean_json_schema` (json_schema.rs lines 10-30): the root pre-pass
removes `$defs`/`definitions`, collects their object fields as the local
definition map, runs `flatten_refs` when that map is non-empty, and then
runs the recursive cleaner.  `none` means the fuel for `flatten_refs` ran
out (the source would not have terminated within that depth). -/
def cleanJsonSchema (fuel : Nat) (v : Json) : Option Json :=
  let pre : Option Json :=
    match v with
    | Json.obj m =>
      let (d1, m1) := m.removeKey "$defs"
      let (d2, m2) := m1.removeKey "definitions"
      let defs := (defsFields d1).extendOverride (defsFields d2)
      match defs with
      | JObj.nil => some (Json.obj m2)
      | _ => (flattenRefs fuel defs m2).map Json.obj
    | other => some other
  match pre with
  | none => none
  | some v1 => some (cleanRec v1)

mutual
/-- The strip-closure predicate: no key of the removal list occurs in any
object node reachable through the cleaner's own recursion sites (the root,
array elements, values of `properties`, the value of `items`, and elements
of `allOf`/`anyOf`/`oneOf`). -/
def cleanOK : Json → Bool
  | Json.obj fs => cleanOKObj fs
  | Json.arr xs => cleanOKArr xs
  | _ => true

/-- `cleanOK` on the fields of an object node. -/
def cleanOKObj : JObj → Bool
  | JObj.nil => true
  | JObj.cons k v rest =>
    !shouldRemove k &&
    (if k = "properties" then
       match v with
       | Json.obj props => cleanOKProps props
       | _ => true
     else if k = "items" then cleanOK v
     else if k = "allOf" ∨ k = "anyOf" ∨ k = "oneOf" then
       match v with
       | Json.arr xs => cleanOKArr xs
       | _ => true
     else true) &&
    cleanOKObj rest

/-- `cleanOK` on every value of a `properties` object. -/
def cleanOKProps : JObj → Bool
  | JObj.nil => true
  | JObj.cons _ v rest => cleanOK v && cleanOKProps rest

/-- `cleanOK` on every element of an array. -/
def cleanOKArr : JArr → Bool
  | JArr.nil => true
  | JArr.cons x xs => cleanOK x && cleanOKArr xs
end

/-- The per-entry part of `cleanOKObj`, named for the proofs. -/
def cleanOKEntry (k : String) (v : Json) : Bool :=
  if k = "properties" then
    match v with
    | Json.obj props => cleanOKProps props
    | _ => true
  else if k = "items" then cleanOK v
  else if k = "allOf" ∨ k = "anyOf" ∨ k = "oneOf" then
    match v with
    | Json.arr xs => cleanOKArr xs
    | _ => true
  else true

/-- The root object carries neither `$defs` nor `definitions` (for non-object
values there is nothing the pre-pass could remove). -/
def noRootDefs : Json → Bool
  | Json.obj m => !(m.hasKey "$defs" || m.hasKey "definitions")
  | _ => true

/-! ## Proxy service lifecycle — src-tauri/src/services/proxy.rs

The lifecycle is embedded as a pure transition system.  `ProxyService`'s two
slots become a `ServiceState`; the external collaborators invoked by
`_finish_start` (account store, listener, config store) are not part of the
provided sources, so each is represented by the outcome the environment
gives it (`StartEnv`), and `_start_common`/`_finish_start` become a state
transformer returning the new state together with the `Result`.  The
monitor's internals (`proxy/monitor.rs`) are also outside the sources; its
state is modelled from the spec as a bounded log buffer with aggregate
stats. -/

/-- Modelled from the spec: `ZaiDispatchMode` lives in the proxy config
module, which is not among the provided sources.  Only the distinction the
lifecycle inspects (`matches!(.., ZaiDispatchMode::Off)`) is kept: `Off`
versus any dispatching mode. -/
inductive ZaiDispatchMode where
  | Off
  | Dispatching
deriving DecidableEq

/-- Modelled from the spec: the `zai` secondary-backend config block; the
lifecycle reads `enabled` and `dispatch_mode`. -/
structure ZaiConfig where
  enabled : Bool
  dispatch_mode : ZaiDispatchMode
deriving DecidableEq

/-- The `ProxyConfig` fields the lifecycle logic reads (`port`,
`enable_logging`, `zai`); the routing tables, timeouts and flags it merely
forwards to the listener are irrelevant to the lifecycle claims and are
omitted from the state. -/
structure ProxyConfig where
  port : Nat
  enable_logging : Bool
  zai : ZaiConfig
deriving DecidableEq

/-- `ProxyStats` (from `proxy/monitor.rs`, not among the provided sources).
Modelled from the spec: aggregate counters with a `Default`; only
distinguishability from the default matters here. -/
structure ProxyStats where
  total_requests : Nat
deriving DecidableEq

/-- The default stats (`ProxyStats::default()`). -/
def ProxyStats.default : ProxyStats := ⟨0⟩

/-- A log entry handed to `get_logs` (`ProxyRequestLog`); its fields are out
of scope, so entries are opaque tags. -/
structure ProxyRequestLog where
  tag : Nat
deriving DecidableEq

/-- Modelled from the spec: the monitor is a ring buffer of recent request
logs (capacity fixed at creation, 1000 in `_start_common`) with aggregate
stats and an `enabled` toggle set from `config.enable_logging`. -/
structure MonitorState where
  capacity : Nat
  enabled : Bool
  logs : List ProxyRequestLog
  stats : ProxyStats
deriving DecidableEq

/-- `ProxyMonitor::new(1000, ..)`. -/
def MonitorState.new (capacity : Nat) : MonitorState :=
  ⟨capacity, false, [], ProxyStats.default⟩

/-- Modelled from the spec: the listener records one request log into the
monitor's ring buffer (newest first, truncated at capacity) and bumps the
aggregate counters; the `enable_logging` toggle gates recording. -/
def MonitorState.record (m : MonitorState) (e : ProxyRequestLog) : MonitorState :=
  if m.enabled then
    { m with logs := (e :: m.logs).take m.capacity,
             stats := ⟨m.stats.total_requests + 1⟩ }
  else m

/-- Modelled from the spec: `ProxyMonitor::get_logs(limit)` returns the most
recent `limit` entries. -/
def MonitorState.getLogs (m : MonitorState) (limit : Nat) : List ProxyRequestLog :=
  m.logs.take limit

/-- `ProxyServiceInstance` (proxy.rs lines 16-21): the published instance.
The token manager is represented by the account count `load_accounts`
returned (its `len()`), the server and task handles carry no state the
accessors read. -/
structure ProxyServiceInstance where
  config : ProxyConfig
  token_manager_len : Nat
deriving DecidableEq

/-- The two slots of `ProxyService` (proxy.rs lines 10-13). -/
structure ServiceState where
  instance_slot : Option ProxyServiceInstance
  monitor : Option MonitorState
deriving DecidableEq

/-- `ProxyService::new` (proxy.rs lines 33-38). -/
def ServiceState.new : ServiceState := ⟨none, none⟩

/-- `ProxyStatus` (proxy.rs lines 24-30). -/
structure ProxyStatus where
  running : Bool
  port : Nat
  base_url : String
  active_accounts : Nat
deriving DecidableEq

/-- Outcomes of the external calls `_finish_start` makes, in call order:
`account::get_data_dir`, `account::get_accounts_dir`,
`TokenManager::load_accounts` (returning the active-account count),
`AxumServer::start`, `config::load_app_config`, `config::save_app_config`.
These modules are not among the provided sources; an environment fixes each
call's result. -/
structure StartEnv where
  get_data_dir : Except String Unit
  get_accounts_dir : Except String Unit
  load_accounts : Except String Nat
  axum_start : Except String Unit
  load_app_config : Except String Unit
  save_app_config : Except String Unit

/-- An environment in which every external call succeeds and `n` active
accounts are loaded. -/
def StartEnv.allOk (n : Nat) : StartEnv :=
  ⟨Except.ok (), Except.ok (), Except.ok n, Except.ok (), Except.ok (), Except.ok ()⟩

/-- `_finish_start` (proxy.rs lines 114-186), under the write lock: data
dir, accounts dir, token manager, account loading, the zai-relaxed
no-account check, listener launch, instance publication, config
persistence, and the success DTO.  Note the source publishes the instance
(line 171) before persisting the config (lines 176-178). -/
def finishStart (env : StartEnv) (config : ProxyConfig) (st : ServiceState) :
    ServiceState × Except String ProxyStatus :=
  match env.get_data_dir with
  | Except.error e => (st, Except.error e)
  | Except.ok _ =>
  match env.get_accounts_dir with
  | Except.error e => (st, Except.error e)
  | Except.ok _ =>
  match env.load_accounts with
  | Except.error e => (st, Except.error ("加载账号失败: " ++ e))
  | Except.ok active_accounts =>
  if active_accounts = 0 ∧
      ¬(config.zai.enabled = true ∧ config.zai.dispatch_mode ≠ ZaiDispatchMode.Off) then
    (st, Except.error "没有可用账号，请先添加账号")
  else
  match env.axum_start with
  | Except.error e => (st, Except.error ("启动 Axum 服务器失败: " ++ e))
  | Except.ok _ =>
  let st1 : ServiceState :=
    { st with instance_slot := some ⟨config, active_accounts⟩ }
  match env.load_app_config with
  | Except.error e => (st1, Except.error e)
  | Except.ok _ =>
  match env.save_app_config with
  | Except.error e => (st1, Except.error e)
  | Except.ok _ =>
    (st1, Except.ok ⟨true, config.port,
      "http://127.0.0.1:" ++ Nat.repr config.port, active_accounts⟩)

/-- `start` via `_start_common` (proxy.rs lines 64-110): the
already-running check, monitor establishment and logging toggle, then
`_finish_start`. -/
def startService (env : StartEnv) (config : ProxyConfig) (st : ServiceState) :
    ServiceState × Except String ProxyStatus :=
  if st.instance_slot.isSome then
    (st, Except.error "服务已在运行中")
  else
    let monitor :=
      match st.monitor with
      | none => MonitorState.new 1000
      | some m => m
    let monitor := { monitor with enabled := config.enable_logging }
    finishStart env config { st with monitor := some monitor }

/-- `stop` (proxy.rs lines 189-206): fails when not running, otherwise
takes the instance out of the slot. -/
def stopService (st : ServiceState) : ServiceState × Except String Unit :=
  match st.instance_slot with
  | none => (st, Except.error "服务未运行")
  | some _ => ({ st with instance_slot := none }, Except.ok ())

/-- `get_status` (proxy.rs lines 209-226). -/
def get_status (st : ServiceState) : ProxyStatus :=
  match st.instance_slot with
  | some inst =>
    ⟨true, inst.config.port,
      "http://127.0.0.1:" ++ Nat.repr inst.config.port,
      inst.token_manager_len⟩
  | none => ⟨false, 0, "", 0⟩

/-- `get_stats` (proxy.rs lines 229-236); the monitor's accessor is
modelled from the spec as returning its aggregate stats. -/
def get_stats (st : ServiceState) : ProxyStats :=
  match st.monitor with
  | some monitor => monitor.stats
  | none => ProxyStats.default

/-- `get_logs` (proxy.rs lines 239-246). -/
def get_logs (st : ServiceState) (limit : Nat) : List ProxyRequestLog :=
  match st.monitor with
  | some monitor => monitor.getLogs limit
  | none => []

/-- The listener records a request log through its monitor handle (spec
data-flow; the listener is outside the provided sources). -/
def recordLog (st : ServiceState) (e : ProxyRequestLog) : ServiceState :=
  match st.monitor with
  | some monitor => { st with monitor := some (monitor.record e) }
  | none => st

/-! ## Helper lemmas -/

/-- A successful association-list lookup returns one of the list's values. -/
theorem alookup_mem_values {α : Type} :
    ∀ (l : List (String × α)) (k : String) (v : α),
      alookup l k = some v → v ∈ l.map Prod.snd := by
  intro l k v h
  induction l with
  | nil => simp [alookup] at h
  | cons hd tl ih =>
    rw [alookup] at h
    by_cases hk : hd.1 = k
    · simp only [hk, if_pos rfl] at h
      cases h
      simp
    · rw [if_neg hk] at h
      simp only [List.map_cons, List.mem_cons]
      exact Or.inr (ih h)

/-- Every value of the built-in table is non-empty, does not carry the
strategy sentinel, and is a fixed point of the system map. -/
theorem claude_table_values_good :
    ∀ v ∈ CLAUDE_TO_GEMINI.map Prod.snd,
      v ≠ "" ∧ strStartsWith v "strategy:" = false ∧
        map_claude_model_to_gemini v = v := by decide

/-- `map_claude_model_to_gemini` maps non-empty inputs to non-empty
outputs. -/
theorem map_claude_ne_empty (input : String) (h1 : input ≠ "") :
    map_claude_model_to_gemini input ≠ "" := by
  unfold map_claude_model_to_gemini
  cases h : alookup CLAUDE_TO_GEMINI input with
  | some mapped => exact (claude_table_values_good mapped (alookup_mem_values _ _ _ h)).1
  | none =>
    by_cases hp : (strStartsWith input "gemini-" || strContains input "thinking") = true
    · rw [if_pos hp]; exact h1
    · rw [if_neg hp]; decide

/-- `map_claude_model_to_gemini` never introduces the `strategy:` sentinel:
if the input does not carry it, neither does the output. -/
theorem map_claude_no_sentinel (input : String)
    (h2 : strStartsWith input "strategy:" = false) :
    strStartsWith (map_claude_model_to_gemini input) "strategy:" = false := by
  unfold map_claude_model_to_gemini
  cases h : alookup CLAUDE_TO_GEMINI input with
  | some mapped => exact (claude_table_values_good mapped (alookup_mem_values _ _ _ h)).2.1
  | none =>
    by_cases hp : (strStartsWith input "gemini-" || strContains input "thinking") = true
    · rw [if_pos hp]; exact h2
    · rw [if_neg hp]; decide

/-- A successful guarded probe returns one of the mapping's values. -/
theorem group_lookup_mem_values (cond : Bool)
    (mapping : List (String × String)) (key target : String)
    (h : group_lookup cond mapping key = some target) :
    target ∈ mapping.map Prod.snd := by
  unfold group_lookup at h
  split at h
  · exact alookup_mem_values _ _ _ h
  · cases h

/-- Case analysis: `resolve_model_route` returns a value of one of the
three tables, the hard-coded haiku downgrade, the input itself, or the
output of the built-in system map on the input. -/
theorem resolve_route_cases (m : String)
    (custom openai anthropic : List (String × String)) (flag : Bool) :
    resolve_model_route m custom openai anthropic flag ∈ custom.map Prod.snd ∨
    resolve_model_route m custom openai anthropic flag ∈ openai.map Prod.snd ∨
    resolve_model_route m custom openai anthropic flag ∈ anthropic.map Prod.snd ∨
    resolve_model_route m custom openai anthropic flag = "gemini-2.5-flash-lite" ∨
    resolve_model_route m custom openai anthropic flag = m ∨
    resolve_model_route m custom openai anthropic flag
      = map_claude_model_to_gemini m := by
  simp only [resolve_model_route]
  repeat' split
  all_goals first
  | exact Or.inr (Or.inr (Or.inr (Or.inr (Or.inr rfl))))
  | exact Or.inr (Or.inr (Or.inr (Or.inr (Or.inl rfl))))
  | exact Or.inr (Or.inr (Or.inr (Or.inl rfl)))
  | (rename_i h
     first
     | exact Or.inl (alookup_mem_values _ _ _ h)
     | exact Or.inl (List.mem_map.mpr ⟨_, List.mem_of_find?_eq_some h, rfl⟩)
     | exact Or.inr (Or.inl (group_lookup_mem_values _ _ _ _ h))
     | exact Or.inr (Or.inr (Or.inl (alookup_mem_values _ _ _ h))))

/-- The resolver's output is non-empty whenever the input and all table
values are non-empty. -/
theorem resolve_route_ne_empty (m : String)
    (custom openai anthropic : List (String × String)) (flag : Bool)
    (hm : m ≠ "")
    (hc : ∀ v ∈ custom.map Prod.snd, v ≠ "")
    (ho : ∀ v ∈ openai.map Prod.snd, v ≠ "")
    (ha : ∀ v ∈ anthropic.map Prod.snd, v ≠ "") :
    resolve_model_route m custom openai anthropic flag ≠ "" := by
  rcases resolve_route_cases m custom openai anthropic flag with h | h | h | h | h | h
  · exact hc _ h
  · exact ho _ h
  · exact ha _ h
  · rw [h]; decide
  · rw [h]; exact hm
  · rw [h]; exact map_claude_ne_empty m hm

/-- `default_route_plan` builds a safe primary and no fallbacks, as long as
the original model is non-empty and sentinel-free and the resolved target is
non-empty. -/
theorem default_route_plan_safe (m target : String)
    (hm : m ≠ "") (hms : strStartsWith m "strategy:" = false)
    (ht : target ≠ "") :
    (default_route_plan m target).primary ≠ "" ∧
      strStartsWith (default_route_plan m target).primary "strategy:" = false ∧
      (default_route_plan m target).fallbacks = [] := by
  unfold default_route_plan
  cases hs : strStartsWith target "strategy:" with
  | true =>
    refine ⟨?_, ?_, rfl⟩ <;> rw [if_pos rfl]
    · exact map_claude_ne_empty m hm
    · exact map_claude_no_sentinel m hms
  | false =>
    refine ⟨?_, ?_, rfl⟩ <;> rw [if_neg Bool.false_ne_true]
    · exact ht
    · exact hs

/-- A member of `candidates()` is either the (then non-empty) primary or a
non-empty fallback. -/
theorem candidates_mem (p : ModelRoutePlan) (c : String)
    (h : c ∈ p.candidates) :
    (c = p.primary ∧ p.primary ≠ "") ∨ (c ∈ p.fallbacks ∧ c ≠ "") := by
  unfold ModelRoutePlan.candidates at h
  rcases List.mem_append.mp h with h1 | h2
  · left
    by_cases hp : (p.primary == "") = true
    · simp [hp] at h1
    · simp only [hp, Bool.not_false, if_pos, Bool.not_eq_true] at h1
      rcases List.mem_singleton.mp (by simpa using h1) with rfl
      exact ⟨rfl, by simpa using hp⟩
  · right
    have := List.mem_filter.mp h2
    exact ⟨this.1, by simpa using this.2⟩

/-! ## Claim theorems -/

/-- C3 (counterexample): for the input `"strategy:thinking"` with empty
tables and an empty strategy map, the claim fails: the system map passes the
input through (it contains `"thinking"`), the sentinel finds no strategy,
and the fall-through primary — hence the sole candidate — itself begins
with `strategy:`. -/
theorem C3_counterexample :
    (resolve_model_route_plan "strategy:thinking" [] [] [] [] false).candidates
        = ["strategy:thinking"] ∧
      strStartsWith "strategy:thinking" "strategy:" = true := by
  constructor <;> rfl

/-- C3 (amended): for every input model id that is non-empty and does not
itself begin with `strategy:`, and tables whose values are non-empty, the
plan returned by `resolve_model_route_plan` has a non-empty primary, its
fallbacks contain no empty or `strategy:`-prefixed entries, and no element
of `candidates()` is empty or begins with `strategy:`. -/
theorem C3_amended (m : String)
    (custom openai anthropic : List (String × String))
    (strategies : List (String × ModelStrategy)) (flag : Bool)
    (hm : m ≠ "") (hms : strStartsWith m "strategy:" = false)
    (hc : ∀ v ∈ custom.map Prod.snd, v ≠ "")
    (ho : ∀ v ∈ openai.map Prod.snd, v ≠ "")
    (ha : ∀ v ∈ anthropic.map Prod.snd, v ≠ "") :
    (resolve_model_route_plan m custom openai anthropic strategies flag).primary ≠ "" ∧
    (∀ fb ∈ (resolve_model_route_plan m custom openai anthropic strategies flag).fallbacks,
        fb ≠ "" ∧ strStartsWith fb "strategy:" = false) ∧
    (∀ c ∈ (resolve_model_route_plan m custom openai anthropic strategies flag).candidates,
        c ≠ "" ∧ strStartsWith c "strategy:" = false) := by
  have ht := resolve_route_ne_empty m custom openai anthropic flag hm hc ho ha
  have main :
      (resolve_model_route_plan m custom openai anthropic strategies flag).primary ≠ "" ∧
      strStartsWith (resolve_model_route_plan m custom openai anthropic strategies flag).primary
          "strategy:" = false ∧
      (∀ fb ∈ (resolve_model_route_plan m custom openai anthropic strategies flag).fallbacks,
          fb ≠ "" ∧ strStartsWith fb "strategy:" = false) := by
    simp only [resolve_model_route_plan]
    split
    · split
      · split
        · next primary rest heq =>
          have hall : ∀ x ∈ primary :: rest,
              (!(x == "") && !(strStartsWith x "strategy:")) = true := by
            intro x hx
            rw [← heq] at hx
            exact (List.mem_filter.mp hx).2
          have hp := hall primary (List.mem_cons_self _ _)
          refine ⟨?_, ?_, ?_⟩
          · simpa using (Bool.and_elim_left hp)
          · simpa using (Bool.and_elim_right hp)
          · intro fb hfb
            have := hall fb (List.mem_cons_of_mem _ hfb)
            exact ⟨by simpa using Bool.and_elim_left this,
              by simpa using Bool.and_elim_right this⟩
        · have h := default_route_plan_safe m _ hm hms ht
          exact ⟨h.1, h.2.1, by rw [h.2.2]; intro fb hfb; cases hfb⟩
      · have h := default_route_plan_safe m _ hm hms ht
        exact ⟨h.1, h.2.1, by rw [h.2.2]; intro fb hfb; cases hfb⟩
    · have h := default_route_plan_safe m _ hm hms ht
      exact ⟨h.1, h.2.1, by rw [h.2.2]; intro fb hfb; cases hfb⟩
  refine ⟨main.1, main.2.2, ?_⟩
  intro c hcand
  rcases candidates_mem _ _ hcand with ⟨rfl, _⟩ | ⟨hmem, _⟩
  · exact ⟨main.1, main.2.1⟩
  · exact main.2.2 c hmem

/-- C3 (witness): the amended theorem applied at `"gpt-4"` with empty
tables and strategy map. -/
theorem C3_amended_witness :
    "gpt-4" ≠ "" ∧
      (resolve_model_route_plan "gpt-4" [] [] [] [] false).primary ≠ "" :=
  ⟨by decide,
    (C3_amended "gpt-4" [] [] [] [] false (by decide) (by decide)
      (by intro v hv; cases hv) (by intro v hv; cases hv)
      (by intro v hv; cases hv)).1⟩

/-- C4: the concrete strategy-expansion scenario S5: custom maps `gpt-4` to
`strategy:S`, strategy `S` holds two gemini candidates with a
CapacityFirst/Weak/max-1 policy; the plan exposes them in order with the
strategy's policy. -/
theorem C4_strategy_scenario :
    ∀ flag : Bool,
      (resolve_model_route_plan "gpt-4" [("gpt-4", "strategy:S")] [] []
          [("S", ⟨["gemini-3-pro-high", "gemini-3-flash"],
            ⟨ModelPriority.CapacityFirst, ModelStickiness.Weak, some 1⟩⟩)]
          flag).primary = "gemini-3-pro-high" ∧
      (resolve_model_route_plan "gpt-4" [("gpt-4", "strategy:S")] [] []
          [("S", ⟨["gemini-3-pro-high", "gemini-3-flash"],
            ⟨ModelPriority.CapacityFirst, ModelStickiness.Weak, some 1⟩⟩)]
          flag).fallbacks = ["gemini-3-flash"] ∧
      (resolve_model_route_plan "gpt-4" [("gpt-4", "strategy:S")] [] []
          [("S", ⟨["gemini-3-pro-high", "gemini-3-flash"],
            ⟨ModelPriority.CapacityFirst, ModelStickiness.Weak, some 1⟩⟩)]
          flag).strategy_id = some "S" ∧
      (resolve_model_route_plan "gpt-4" [("gpt-4", "strategy:S")] [] []
          [("S", ⟨["gemini-3-pro-high", "gemini-3-flash"],
            ⟨ModelPriority.CapacityFirst, ModelStickiness.Weak, some 1⟩⟩)]
          flag).is_capacity_first = true ∧
      (resolve_model_route_plan "gpt-4" [("gpt-4", "strategy:S")] [] []
          [("S", ⟨["gemini-3-pro-high", "gemini-3-flash"],
            ⟨ModelPriority.CapacityFirst, ModelStickiness.Weak, some 1⟩⟩)]
          flag).max_models = 1 ∧
      ((resolve_model_route_plan "gpt-4" [("gpt-4", "strategy:S")] [] []
          [("S", ⟨["gemini-3-pro-high", "gemini-3-flash"],
            ⟨ModelPriority.CapacityFirst, ModelStickiness.Weak, some 1⟩⟩)]
          flag).candidates).length = 2 := by
  decide

/-- C5: the concrete missing-strategy scenario S6: custom maps the model to
`strategy:missing`, the strategy map is empty; the plan falls through to the
system map on the original input, with no fallbacks, no strategy id, and the
default policy. -/
theorem C5_missing_strategy_scenario :
    ∀ flag : Bool,
      (resolve_model_route_plan "claude-3-5-sonnet-20241022"
          [("claude-3-5-sonnet-20241022", "strategy:missing")] [] [] []
          flag).primary = "claude-sonnet-4-5" ∧
      (resolve_model_route_plan "claude-3-5-sonnet-20241022"
          [("claude-3-5-sonnet-20241022", "strategy:missing")] [] [] []
          flag).fallbacks = [] ∧
      (resolve_model_route_plan "claude-3-5-sonnet-20241022"
          [("claude-3-5-sonnet-20241022", "strategy:missing")] [] [] []
          flag).strategy_id = none ∧
      (resolve_model_route_plan "claude-3-5-sonnet-20241022"
          [("claude-3-5-sonnet-20241022", "strategy:missing")] [] [] []
          flag).policy = ModelFallbackPolicy.default := by
  decide

/-- C6: the route resolver never fails: under the spec's data model (model
ids — the input and every table value — are non-empty strings) it always
returns a non-empty target id, falling back to the default model when
nothing else matches. -/
theorem C6_resolver_total (m : String)
    (custom openai anthropic : List (String × String)) (flag : Bool)
    (hm : m ≠ "")
    (hc : ∀ v ∈ custom.map Prod.snd, v ≠ "")
    (ho : ∀ v ∈ openai.map Prod.snd, v ≠ "")
    (ha : ∀ v ∈ anthropic.map Prod.snd, v ≠ "") :
    resolve_model_route m custom openai anthropic flag ≠ "" :=
  resolve_route_ne_empty m custom openai anthropic flag hm hc ho ha

/-- C6 (witness): the theorem applied at `"unknown-model"` with empty
tables, where the resolver returns the default model. -/
theorem C6_resolver_total_witness :
    "unknown-model" ≠ "" ∧
      resolve_model_route "unknown-model" [] [] [] false ≠ "" :=
  ⟨by decide,
    C6_resolver_total "unknown-model" [] [] [] false (by decide)
      (by intro v hv; cases hv) (by intro v hv; cases hv)
      (by intro v hv; cases hv)⟩

/-- C7 (counterexample): the plan with empty primary, no fallbacks and the
default policy has no candidates, yet `max_models()` is `count.max(1) = 1`,
so `max_models() ≤ len(candidates())` fails. -/
theorem C7_counterexample :
    ¬ (ModelRoutePlan.max_models ⟨"", [], ModelFallbackPolicy.default, none⟩ ≤
        (ModelRoutePlan.candidates ⟨"", [], ModelFallbackPolicy.default, none⟩).length) := by
  decide

/-- C7 (amended): for every plan, `max_models() ≤ max 1 (len (candidates()))`
— so `max_models() ≤ len(candidates())` whenever any candidate exists — and
`max_models() ≥ 1` whenever any candidate exists. -/
theorem C7_amended (p : ModelRoutePlan) :
    p.max_models ≤ max 1 p.candidates.length ∧
      (p.candidates ≠ [] → 1 ≤ p.max_models) := by
  unfold ModelRoutePlan.max_models
  cases h : p.policy.max_model_hops with
  | none =>
    dsimp only
    constructor
    · exact Nat.le_of_eq (Nat.max_comm _ _)
    · intro _
      exact Nat.le_max_right _ _
  | some hops =>
    dsimp only
    by_cases hh : hops > 0
    · rw [if_pos hh]
      constructor
      · exact Nat.le_trans (Nat.min_le_right _ _) (Nat.le_max_right _ _)
      · intro hne
        have hlen : 1 ≤ p.candidates.length :=
          Nat.succ_le_of_lt (List.length_pos.mpr hne)
        exact Nat.le_min.mpr ⟨hh, hlen⟩
    · rw [if_neg hh]
      constructor
      · exact Nat.le_of_eq (Nat.max_comm _ _)
      · intro _
        exact Nat.le_max_right _ _

/-- C7 (witness): the amended theorem applied to a one-candidate plan. -/
theorem C7_amended_witness :
    ModelRoutePlan.candidates ⟨"m", [], ModelFallbackPolicy.default, none⟩ ≠ [] ∧
      1 ≤ ModelRoutePlan.max_models ⟨"m", [], ModelFallbackPolicy.default, none⟩ :=
  ⟨by decide, (C7_amended ⟨"m", [], ModelFallbackPolicy.default, none⟩).2 (by decide)⟩

/-- C10: the built-in system map is idempotent: every value it returns is a
fixed point of the map. -/
theorem C10_system_map_idempotent (s : String) :
    map_claude_model_to_gemini (map_claude_model_to_gemini s)
      = map_claude_model_to_gemini s := by
  cases h : alookup CLAUDE_TO_GEMINI s with
  | some mapped =>
    have hv : map_claude_model_to_gemini s = mapped := by
      unfold map_claude_model_to_gemini
      rw [h]
    rw [hv]
    exact (claude_table_values_good mapped (alookup_mem_values _ _ _ h)).2.2
  | none =>
    by_cases hp : (strStartsWith s "gemini-" || strContains s "thinking") = true
    · have hv : map_claude_model_to_gemini s = s := by
        unfold map_claude_model_to_gemini
        rw [h, if_pos hp]
      rw [hv, hv]
    · have hv : map_claude_model_to_gemini s = "claude-sonnet-4-5" := by
        unfold map_claude_model_to_gemini
        rw [h, if_neg hp]
      rw [hv]
      decide

/-- On every error exit of `_finish_start` before the publication point the
instance slot is left as it was; after publication the remaining external
calls are config persistence, so if both persistence calls succeed an error
result implies the slot was never written. -/
theorem finishStart_error_state (env : StartEnv) (config : ProxyConfig)
    (st : ServiceState) (hstopped : st.instance_slot = none)
    (hload : env.load_app_config = Except.ok ())
    (hsave : env.save_app_config = Except.ok ())
    (e : String) (herr : (finishStart env config st).2 = Except.error e) :
    (finishStart env config st).1.instance_slot = none := by
  revert herr
  unfold finishStart
  cases env.get_data_dir with
  | error _ => intro _; exact hstopped
  | ok _ =>
  cases env.get_accounts_dir with
  | error _ => intro _; exact hstopped
  | ok _ =>
  cases env.load_accounts with
  | error _ => intro _; exact hstopped
  | ok n =>
  dsimp only
  by_cases hz : n = 0 ∧
      ¬(config.zai.enabled = true ∧ config.zai.dispatch_mode ≠ ZaiDispatchMode.Off)
  · rw [if_pos hz]
    intro _
    exact hstopped
  · rw [if_neg hz]
    cases env.axum_start with
    | error _ => intro _; exact hstopped
    | ok _ =>
      rw [hload, hsave]
      intro herr
      cases herr

/-- C1 (counterexample): with one active account, a working listener and a
failing config-persistence step, `start` returns an error, yet the instance
was already published (proxy.rs line 171 precedes lines 176-178), so a
subsequent `get_status` observes `running: true`. -/
theorem C1_counterexample :
    ((startService
        { StartEnv.allOk 1 with save_app_config := Except.error "persist failed" }
        ⟨8045, false, ⟨false, ZaiDispatchMode.Off⟩⟩ ServiceState.new).2
      = Except.error "persist failed") ∧
    (get_status (startService
        { StartEnv.allOk 1 with save_app_config := Except.error "persist failed" }
        ⟨8045, false, ⟨false, ZaiDispatchMode.Off⟩⟩ ServiceState.new).1).running
      = true := by
  constructor <;> rfl

/-- C1 (amended): from a stopped state, for every environment whose two
config-persistence calls succeed, any error from `start` (already-running
check aside, data-dir, accounts-dir, account-load, no-account, and
listener-start failures) leaves the instance slot unpublished: a subsequent
`get_status` observes `running: false`.  A config-persistence failure is the
exception: it errors after the instance is published. -/
theorem C1_amended (env : StartEnv) (config : ProxyConfig) (st : ServiceState)
    (hstopped : st.instance_slot = none)
    (hload : env.load_app_config = Except.ok ())
    (hsave : env.save_app_config = Except.ok ())
    (e : String) (herr : (startService env config st).2 = Except.error e) :
    (get_status (startService env config st).1).running = false := by
  unfold startService at herr ⊢
  rw [hstopped] at herr ⊢
  dsimp only [Option.isSome] at herr ⊢
  rw [if_neg Bool.false_ne_true] at herr ⊢
  have hslot := finishStart_error_state env config _ rfl hload hsave e herr
  unfold get_status
  rw [hslot]

/-- C1 (witness): the amended theorem applied to the no-account failure
from the fresh stopped state. -/
theorem C1_amended_witness :
    ((startService (StartEnv.allOk 0)
        ⟨8045, false, ⟨false, ZaiDispatchMode.Off⟩⟩ ServiceState.new).2
      = Except.error "没有可用账号，请先添加账号") ∧
    (get_status (startService (StartEnv.allOk 0)
        ⟨8045, false, ⟨false, ZaiDispatchMode.Off⟩⟩ ServiceState.new).1).running
      = false :=
  ⟨rfl, C1_amended (StartEnv.allOk 0) ⟨8045, false, ⟨false, ZaiDispatchMode.Off⟩⟩
    ServiceState.new rfl rfl rfl _ rfl⟩

/-- C9 (counterexample): a start/record/stop cycle with logging enabled
reaches a stopped state (`get_status` is the stopped DTO) in which the
monitor has survived, so `get_logs` returns the recorded entry rather than
an empty list and `get_stats` differs from the default stats. -/
theorem C9_counterexample :
    ((stopService (recordLog (startService (StartEnv.allOk 1)
        ⟨80, true, ⟨false, ZaiDispatchMode.Off⟩⟩ ServiceState.new).1 ⟨7⟩)).2
      = Except.ok ()) ∧
    ((stopService (recordLog (startService (StartEnv.allOk 1)
        ⟨80, true, ⟨false, ZaiDispatchMode.Off⟩⟩ ServiceState.new).1 ⟨7⟩)).1.instance_slot
      = none) ∧
    (get_status (stopService (recordLog (startService (StartEnv.allOk 1)
        ⟨80, true, ⟨false, ZaiDispatchMode.Off⟩⟩ ServiceState.new).1 ⟨7⟩)).1
      = ⟨false, 0, "", 0⟩) ∧
    (get_logs (stopService (recordLog (startService (StartEnv.allOk 1)
        ⟨80, true, ⟨false, ZaiDispatchMode.Off⟩⟩ ServiceState.new).1 ⟨7⟩)).1 10
      = [⟨7⟩]) ∧
    (get_stats (stopService (recordLog (startService (StartEnv.allOk 1)
        ⟨80, true, ⟨false, ZaiDispatchMode.Off⟩⟩ ServiceState.new).1 ⟨7⟩)).1
      ≠ ProxyStats.default) := by
  refine ⟨rfl, rfl, rfl, rfl, ?_⟩
  decide

/-- C9 (amended): when stopped, `get_status` returns exactly
`{ running: false, port: 0, base_url: "", active_accounts: 0 }`; `get_stats`
and `get_logs` return the default stats and the empty list whenever the
monitor slot is still empty (as before the first start).  After a start the
monitor persists across `stop`, and the stat/log accessors return its
accumulated data, which need not be defaulted/empty. -/
theorem C9_amended (st : ServiceState) (limit : Nat) :
    (st.instance_slot = none → get_status st = ⟨false, 0, "", 0⟩) ∧
    (st.monitor = none →
      get_stats st = ProxyStats.default ∧ get_logs st limit = []) := by
  constructor
  · intro h
    unfold get_status
    rw [h]
  · intro h
    unfold get_stats get_logs
    rw [h]
    exact ⟨rfl, rfl⟩

/-- C9 (witness): the amended theorem applied to the freshly constructed
service. -/
theorem C9_amended_witness :
    get_status ServiceState.new = ⟨false, 0, "", 0⟩ ∧
      get_stats ServiceState.new = ProxyStats.default ∧
      get_logs ServiceState.new 3 = [] :=
  ⟨(C9_amended ServiceState.new 3).1 rfl, (C9_amended ServiceState.new 3).2 rfl⟩

/-! ## Schema-flattener lemmas -/

/-- `Char.ofNat` at a valid code point round-trips through `Char.toNat`. -/
theorem char_toNat_ofNat (n : Nat) (h : Nat.isValidChar n) :
    (Char.ofNat n).toNat = n := by
  unfold Char.ofNat
  rw [dif_pos h]
  rfl

/-- ASCII upper-casing is idempotent on characters. -/
theorem upperChar_idem (c : Char) : upperChar (upperChar c) = upperChar c := by
  unfold upperChar
  by_cases h : 97 ≤ c.toNat ∧ c.toNat ≤ 122
  · rw [if_pos h]
    have ht : (Char.ofNat (c.toNat - 32)).toNat = c.toNat - 32 :=
      char_toNat_ofNat _ (Or.inl (by omega))
    rw [ht]
    rw [if_neg (by omega)]
  · rw [if_neg h, if_neg h]

/-- ASCII upper-casing is idempotent on strings. -/
theorem rustUpper_idem (s : String) : rustUpper (rustUpper s) = rustUpper s := by
  unfold rustUpper
  refine congrArg String.mk ?_
  show (s.data.map upperChar).map upperChar = s.data.map upperChar
  rw [List.map_map]
  exact List.map_congr_left fun c _ => upperChar_idem c

/-- The union-type collapse yields an already upper-cased string. -/
theorem selectType_upper : ∀ xs : JArr, rustUpper (selectType xs) = selectType xs
  | JArr.nil => by rw [selectType]; rfl
  | JArr.cons (Json.str s) rest => by
    rw [selectType]
    by_cases hn : s ≠ "null"
    · rw [if_pos hn]
      exact rustUpper_idem s
    · rw [if_neg hn]
      exact selectType_upper rest
  | JArr.cons Json.null rest => selectType_upper rest
  | JArr.cons (Json.boolVal _) rest => selectType_upper rest
  | JArr.cons (Json.num _) rest => selectType_upper rest
  | JArr.cons (Json.arr _) rest => selectType_upper rest
  | JArr.cons (Json.obj _) rest => selectType_upper rest

/-- `type` normalization is idempotent. -/
theorem normType_idem (v : Json) : normType (normType v) = normType v := by
  cases v with
  | str s => rw [normType, normType]; exact congrArg Json.str (rustUpper_idem s)
  | arr xs => rw [normType, normType]; exact congrArg Json.str (selectType_upper xs)
  | null => rfl
  | boolVal b => rfl
  | num n => rfl
  | obj fs => rfl

/-- Unfolding equation of `cleanRec` on objects. -/
theorem cleanRec_obj (fs : JObj) :
    cleanRec (Json.obj fs) = Json.obj (cleanObj fs) := rfl

/-- Unfolding equation of `cleanRec` on arrays. -/
theorem cleanRec_arr (xs : JArr) :
    cleanRec (Json.arr xs) = Json.arr (cleanArr xs) := rfl

/-- Unfolding equation of `cleanObj` on a field, via `cleanEntry`. -/
theorem cleanObj_cons (k : String) (v : Json) (rest : JObj) :
    cleanObj (JObj.cons k v rest)
      = if shouldRemove k then cleanObj rest
        else JObj.cons k (cleanEntry k v) (cleanObj rest) := by
  cases v <;> rfl

/-- Unfolding equation of `cleanProps` on a field. -/
theorem cleanProps_cons (k : String) (v : Json) (rest : JObj) :
    cleanProps (JObj.cons k v rest)
      = JObj.cons k (cleanRec v) (cleanProps rest) := rfl

/-- Unfolding equation of `cleanArr` on an element. -/
theorem cleanArr_cons (x : Json) (xs : JArr) :
    cleanArr (JArr.cons x xs) = JArr.cons (cleanRec x) (cleanArr xs) := rfl

/-- Unfolding equation of `cleanOKObj` on a field, via `cleanOKEntry`. -/
theorem cleanOKObj_cons (k : String) (v : Json) (rest : JObj) :
    cleanOKObj (JObj.cons k v rest)
      = (!shouldRemove k && cleanOKEntry k v && cleanOKObj rest) := by
  cases v <;> rfl

/-- Unfolding equation of `cleanOKProps` on a field. -/
theorem cleanOKProps_cons (k : String) (v : Json) (rest : JObj) :
    cleanOKProps (JObj.cons k v rest) = (cleanOK v && cleanOKProps rest) := rfl

/-- Unfolding equation of `cleanOKArr` on an element. -/
theorem cleanOKArr_cons (x : Json) (xs : JArr) :
    cleanOKArr (JArr.cons x xs) = (cleanOK x && cleanOKArr xs) := rfl

mutual
/-- `clean_json_schema_recursive` is idempotent on values. -/
theorem cleanRec_idem : ∀ v : Json, cleanRec (cleanRec v) = cleanRec v
  | Json.null => rfl
  | Json.boolVal _ => rfl
  | Json.num _ => rfl
  | Json.str _ => rfl
  | Json.arr xs => by rw [cleanRec_arr, cleanRec_arr, cleanArr_idem xs]
  | Json.obj fs => by rw [cleanRec_obj, cleanRec_obj, cleanObj_idem fs]
termination_by v => (sizeOf v, 0)

/-- `clean_json_schema_recursive` is idempotent on object fields. -/
theorem cleanObj_idem : ∀ fs : JObj, cleanObj (cleanObj fs) = cleanObj fs
  | JObj.nil => rfl
  | JObj.cons k v rest => by
    rw [cleanObj_cons]
    by_cases hr : shouldRemove k = true
    · rw [if_pos hr]
      exact cleanObj_idem rest
    · rw [if_neg hr, cleanObj_cons, if_neg hr, cleanObj_idem rest,
        cleanEntry_idem k v]
termination_by fs => (sizeOf fs, 0)

/-- The per-entry transform is idempotent. -/
theorem cleanEntry_idem : ∀ (k : String) (v : Json),
    cleanEntry k (cleanEntry k v) = cleanEntry k v
  | k, v => by
    unfold cleanEntry
    by_cases h1 : k = "type"
    · rw [if_pos h1, if_pos h1]
      exact normType_idem v
    · rw [if_neg h1, if_neg h1]
      by_cases h2 : k = "properties"
      · rw [if_pos h2, if_pos h2]
        cases v with
        | obj props => exact congrArg Json.obj (cleanProps_idem props)
        | null => rfl
        | boolVal _ => rfl
        | num _ => rfl
        | str _ => rfl
        | arr _ => rfl
      · rw [if_neg h2, if_neg h2]
        by_cases h3 : k = "items"
        · rw [if_pos h3, if_pos h3]
          exact cleanRec_idem v
        · rw [if_neg h3, if_neg h3]
          by_cases h4 : k = "allOf" ∨ k = "anyOf" ∨ k = "oneOf"
          · rw [if_pos h4, if_pos h4]
            cases v with
            | arr xs => exact congrArg Json.arr (cleanArr_idem xs)
            | null => rfl
            | boolVal _ => rfl
            | num _ => rfl
            | str _ => rfl
            | obj _ => rfl
          · rw [if_neg h4, if_neg h4]
termination_by k v => (sizeOf v, 1)

/-- `clean_json_schema_recursive` is idempotent on `properties` fields. -/
theorem cleanProps_idem : ∀ fs : JObj, cleanProps (cleanProps fs) = cleanProps fs
  | JObj.nil => rfl
  | JObj.cons k v rest => by
    rw [cleanProps_cons, cleanProps_cons, cleanRec_idem v, cleanProps_idem rest]
termination_by fs => (sizeOf fs, 0)

/-- `clean_json_schema_recursive` is idempotent on array elements. -/
theorem cleanArr_idem : ∀ xs : JArr, cleanArr (cleanArr xs) = cleanArr xs
  | JArr.nil => rfl
  | JArr.cons x xs => by
    rw [cleanArr_cons, cleanArr_cons, cleanRec_idem x, cleanArr_idem xs]
termination_by xs => (sizeOf xs, 0)
end

mutual
/-- The cleaner establishes the strip-closure predicate on values. -/
theorem cleanRec_ok : ∀ v : Json, cleanOK (cleanRec v) = true
  | Json.null => rfl
  | Json.boolVal _ => rfl
  | Json.num _ => rfl
  | Json.str _ => rfl
  | Json.arr xs => by rw [cleanRec_arr]; exact cleanArr_ok xs
  | Json.obj fs => by rw [cleanRec_obj]; exact cleanObj_ok fs
termination_by v => (sizeOf v, 0)

/-- The cleaner establishes the strip-closure predicate on object fields. -/
theorem cleanObj_ok : ∀ fs : JObj, cleanOKObj (cleanObj fs) = true
  | JObj.nil => rfl
  | JObj.cons k v rest => by
    rw [cleanObj_cons]
    by_cases hr : shouldRemove k = true
    · rw [if_pos hr]
      exact cleanObj_ok rest
    · rw [if_neg hr, cleanOKObj_cons, cleanEntry_ok k v, cleanObj_ok rest]
      have hr' : shouldRemove k = false := by rwa [Bool.not_eq_true] at hr
      rw [hr']
      rfl
termination_by fs => (sizeOf fs, 0)

/-- The transformed entry satisfies the per-entry closure predicate. -/
theorem cleanEntry_ok : ∀ (k : String) (v : Json),
    cleanOKEntry k (cleanEntry k v) = true
  | k, v => by
    unfold cleanEntry cleanOKEntry
    by_cases h1 : k = "type"
    · have h2 : ¬ k = "properties" := by rw [h1]; decide
      have h3 : ¬ k = "items" := by rw [h1]; decide
      have h4 : ¬ (k = "allOf" ∨ k = "anyOf" ∨ k = "oneOf") := by rw [h1]; decide
      rw [if_neg h2, if_neg h3, if_neg h4]
    · rw [if_neg h1]
      by_cases h2 : k = "properties"
      · rw [if_pos h2, if_pos h2]
        cases v with
        | obj props => exact cleanProps_ok props
        | null => rfl
        | boolVal _ => rfl
        | num _ => rfl
        | str _ => rfl
        | arr _ => rfl
      · rw [if_neg h2, if_neg h2]
        by_cases h3 : k = "items"
        · rw [if_pos h3, if_pos h3]
          exact cleanRec_ok v
        · rw [if_neg h3, if_neg h3]
          by_cases h4 : k = "allOf" ∨ k = "anyOf" ∨ k = "oneOf"
          · rw [if_pos h4, if_pos h4]
            cases v with
            | arr xs => exact cleanArr_ok xs
            | null => rfl
            | boolVal _ => rfl
            | num _ => rfl
            | str _ => rfl
            | obj _ => rfl
          · rw [if_neg h4]
termination_by k v => (sizeOf v, 1)

/-- The cleaner establishes the closure predicate on `properties` fields. -/
theorem cleanProps_ok : ∀ fs : JObj, cleanOKProps (cleanProps fs) = true
  | JObj.nil => rfl
  | JObj.cons k v rest => by
    rw [cleanProps_cons, cleanOKProps_cons, cleanRec_ok v, cleanProps_ok rest]
    rfl
termination_by fs => (sizeOf fs, 0)

/-- The cleaner establishes the closure predicate on array elements. -/
theorem cleanArr_ok : ∀ xs : JArr, cleanOKArr (cleanArr xs) = true
  | JArr.nil => rfl
  | JArr.cons x xs => by
    rw [cleanArr_cons, cleanOKArr_cons, cleanRec_ok x, cleanArr_ok xs]
    rfl
termination_by xs => (sizeOf xs, 0)
end

/-- Whatever `clean_json_schema` returns went through the recursive
cleaner last. -/
theorem cleanJsonSchema_some (fuel : Nat) (s t : Json)
    (h : cleanJsonSchema fuel s = some t) : ∃ v1, t = cleanRec v1 := by
  unfold cleanJsonSchema at h
  cases s with
  | obj m =>
    dsimp only at h
    repeat' split at h
    all_goals
      first
      | (injection h with h'; exact ⟨_, h'.symm⟩)
      | injection h
  | null =>
    dsimp only at h
    injection h with h'
    exact ⟨_, h'.symm⟩
  | boolVal b =>
    dsimp only at h
    injection h with h'
    exact ⟨_, h'.symm⟩
  | num n =>
    dsimp only at h
    injection h with h'
    exact ⟨_, h'.symm⟩
  | str s' =>
    dsimp only at h
    injection h with h'
    exact ⟨_, h'.symm⟩
  | arr xs =>
    dsimp only at h
    injection h with h'
    exact ⟨_, h'.symm⟩

/-- A key that is absent is not found. -/
theorem getKey_of_hasKey_false :
    ∀ (m : JObj) (k : String), m.hasKey k = false → m.getKey k = none
  | JObj.nil, _, _ => rfl
  | JObj.cons k' v rest, k, h => by
    rw [JObj.hasKey] at h
    simp only [Bool.or_eq_false_iff] at h
    rw [JObj.getKey, if_neg (by simpa using h.1)]
    exact getKey_of_hasKey_false rest k h.2

/-- Erasing an absent key leaves the object unchanged. -/
theorem eraseKey_of_hasKey_false :
    ∀ (m : JObj) (k : String), m.hasKey k = false → m.eraseKey k = m
  | JObj.nil, _, _ => rfl
  | JObj.cons k' v rest, k, h => by
    rw [JObj.hasKey] at h
    simp only [Bool.or_eq_false_iff] at h
    rw [JObj.eraseKey, if_neg (by simpa using h.1),
      eraseKey_of_hasKey_false rest k h.2]

/-- A fixed point of the recursive cleaner whose root carries no
`$defs`/`definitions` key is a fixed point of the whole `clean_json_schema`
pass, for every fuel. -/
theorem cleanJsonSchema_fixed (t : Json) (hroot : noRootDefs t = true)
    (hfix : cleanRec t = t) (fuel2 : Nat) :
    cleanJsonSchema fuel2 t = some t := by
  unfold cleanJsonSchema
  cases t with
  | obj m =>
    rw [noRootDefs] at hroot
    simp only [Bool.not_eq_true', Bool.or_eq_false_iff] at hroot
    simp only [JObj.removeKey, getKey_of_hasKey_false _ _ hroot.1,
      eraseKey_of_hasKey_false _ _ hroot.1,
      getKey_of_hasKey_false _ _ hroot.2,
      eraseKey_of_hasKey_false _ _ hroot.2]
    dsimp only [defsFields]
    rw [JObj.extendOverride]
    exact congrArg some hfix
  | null => exact congrArg some hfix
  | boolVal b => exact congrArg some hfix
  | num n => exact congrArg some hfix
  | str s => exact congrArg some hfix
  | arr xs => exact congrArg some hfix

/-- C2 (counterexample): on `{"$ref": "#/$defs/X"}` (no root `$defs`, so no
definition map is collected and `flatten_refs` never runs, and the cleaner's
removal list does not include `$ref`), `clean_json_schema` returns the input
unchanged — the output still contains the key `$ref`. -/
theorem C2_counterexample :
    cleanJsonSchema 2 (Json.obj (JObj.cons "$ref" (Json.str "#/$defs/X") JObj.nil))
        = some (Json.obj (JObj.cons "$ref" (Json.str "#/$defs/X") JObj.nil)) ∧
      JObj.hasKey (JObj.cons "$ref" (Json.str "#/$defs/X") JObj.nil) "$ref" = true :=
  ⟨rfl, rfl⟩

/-- C2 (amended): whenever `clean_json_schema` terminates, no object node
reachable through the cleaner's own recursion sites (root, array elements,
values of `properties`, value of `items`, elements of `allOf`/`anyOf`/
`oneOf`) contains a key of the strip list.  The original claim's stronger
guarantees — that `$ref`/`$defs`/`definitions` are gone and that the strip
list is enforced on every object node — do not hold (nested `$defs` are
never removed, `$ref` survives when the root has no definitions, and
children under other keys are not visited). -/
theorem C2_amended (fuel : Nat) (s t : Json)
    (h : cleanJsonSchema fuel s = some t) : cleanOK t = true := by
  obtain ⟨v1, rfl⟩ := cleanJsonSchema_some fuel s t h
  exact cleanRec_ok v1

/-- C2 (witness): the amended theorem applied to `{"maxLength": 5}`. -/
theorem C2_amended_witness :
    cleanJsonSchema 1 (Json.obj (JObj.cons "maxLength" (Json.num 5) JObj.nil))
        = some (Json.obj JObj.nil) ∧
      cleanOK (Json.obj JObj.nil) = true :=
  ⟨rfl, C2_amended 1 (Json.obj (JObj.cons "maxLength" (Json.num 5) JObj.nil))
    (Json.obj JObj.nil) rfl⟩

/-- C8 (counterexample): on
`{"$defs": {"X": {"$defs": {}}}, "$ref": "#/X"}` the first pass inlines `X`
and thereby re-introduces a `$defs` key at the root, which only the second
pass removes: `clean(s) = {"$defs": {}}` but `clean(clean(s)) = {}`, so the
flattener is not idempotent. -/
theorem C8_counterexample :
    cleanJsonSchema 9
        (Json.obj (JObj.cons "$defs"
          (Json.obj (JObj.cons "X"
            (Json.obj (JObj.cons "$defs" (Json.obj JObj.nil) JObj.nil)) JObj.nil))
          (JObj.cons "$ref" (Json.str "#/X") JObj.nil)))
        = some (Json.obj (JObj.cons "$defs" (Json.obj JObj.nil) JObj.nil)) ∧
      cleanJsonSchema 9 (Json.obj (JObj.cons "$defs" (Json.obj JObj.nil) JObj.nil))
        = some (Json.obj JObj.nil) ∧
      Json.obj (JObj.cons "$defs" (Json.obj JObj.nil) JObj.nil) ≠ Json.obj JObj.nil := by
  refine ⟨rfl, rfl, ?_⟩
  intro h
  injection h with h'
  cases h'

/-- C8 (amended): `clean_json_schema` is idempotent on every input whose
once-cleaned form carries no `$defs`/`definitions` key at its root (the
`$ref` inlining can graft such a key back onto the root, and only then does
a second pass differ, by removing it): if `clean(s) = t` and `t` has no root
`$defs`/`definitions`, then `clean(t) = t` at every fuel. -/
theorem C8_amended (fuel : Nat) (s t : Json)
    (h : cleanJsonSchema fuel s = some t) (hroot : noRootDefs t = true)
    (fuel2 : Nat) : cleanJsonSchema fuel2 t = some t := by
  obtain ⟨v1, rfl⟩ := cleanJsonSchema_some fuel s t h
  exact cleanJsonSchema_fixed (cleanRec v1) hroot (cleanRec_idem v1) fuel2

/-- C8 (witness): the amended theorem applied to `{"type": "string"}`,
whose cleaned form `{"type": "STRING"}` is a fixed point. -/
theorem C8_amended_witness :
    cleanJsonSchema 3 (Json.obj (JObj.cons "type" (Json.str "string") JObj.nil))
        = some (Json.obj (JObj.cons "type" (Json.str "STRING") JObj.nil)) ∧
      noRootDefs (Json.obj (JObj.cons "type" (Json.str "STRING") JObj.nil)) = true ∧
      cleanJsonSchema 5 (Json.obj (JObj.cons "type" (Json.str "STRING") JObj.nil))
        = some (Json.obj (JObj.cons "type" (Json.str "STRING") JObj.nil)) :=
  ⟨rfl, rfl,
    C8_amended 3 (Json.obj (JObj.cons "type" (Json.str "string") JObj.nil))
      (Json.obj (JObj.cons "type" (Json.str "STRING") JObj.nil)) rfl rfl 5⟩

end AGM
